import Mathlib

/-!
Verification development for two Blender automation scripts:
`import_meshes_to_blender.py` and `view_ply.py`.

The scripts drive the host application (Blender) through `bpy`.  We give a
shallow embedding: the host scene graph is a `SceneState` (objects with a
type tag, a location, collection membership and an optional data block;
collections; mesh/material/armature data blocks), the host importers and the
view-all operator are an oracle `Host`, and each script function becomes a
Lean function on a `World` (scene + printed output + invoked host operators).
Locations are rationals: every coordinate the scripts write (`i * 3.0`,
`j * 5.0`, `0`) is an integer, hence exactly representable, so `ℚ` is a
faithful model of the Python floats involved.
-/

namespace UniRig

/-! ### Python `pathlib` name handling -/

/-- Index of the last occurrence of a dot in a list of characters. -/
def lastDot : List Char → Option Nat
  | [] => none
  | c :: rest =>
    match lastDot rest with
    | some i => some (i + 1)
    | none => if c = '.' then some 0 else none

/-- Model of Python `PurePath.suffix` on a final path component: the part of
the name from the last dot on, and empty unless that dot is strictly inside
the name (`0 < i < len - 1` in the CPython implementation). -/
def pySuffix (nm : String) : String :=
  match lastDot nm.data with
  | none => ""
  | some i => if 0 < i ∧ i + 1 < nm.data.length then String.mk (nm.data.drop i) else ""

/-- Model of Python `str.lower` (sufficient for the ASCII extension strings
the scripts compare against). -/
def pyLower (nm : String) : String := String.mk (nm.data.map Char.toLower)

/-- Model of Python `PurePath.stem` on a final path component. -/
def pyStem (nm : String) : String :=
  match lastDot nm.data with
  | none => nm
  | some i => if 0 < i ∧ i + 1 < nm.data.length then String.mk (nm.data.take i) else nm

/-- A filesystem path as the scripts build them: a directory joined with a
final component (`RESULTS_DIR / filename`). -/
structure FPath where
  dir : String
  fname : String
deriving DecidableEq, Repr

/-- Full path string, as passed to the host import operators. -/
def FPath.str (p : FPath) : String := p.dir ++ "/" ++ p.fname

/-- Python `Path.suffix` of the path. -/
def FPath.suffix (p : FPath) : String := pySuffix p.fname

/-- Python `Path.stem` of the path. -/
def FPath.stem (p : FPath) : String := pyStem p.fname

/-! ### The host scene graph -/

/-- The data block an object points to (`obj.data`): a mesh, an armature, or
nothing that this model tracks. -/
inductive ObjData where
  | dmesh (mid : Nat)
  | darm (aid : Nat)
  | dnone
deriving DecidableEq, Repr

/-- A scene object: identity, type tag (the string `obj.type` exposes, e.g.
"MESH"), location, the collections it is linked into (`obj.users_collection`)
and its data block. -/
structure Obj where
  oid : Nat
  otype : String
  loc : ℚ × ℚ × ℚ
  colls : List Nat
  odata : ObjData
deriving DecidableEq, Repr

/-- A mesh data block: identity and the materials it references. -/
structure MeshBlock where
  mid : Nat
  mats : List Nat
deriving DecidableEq, Repr

/-- A collection: identity and name. -/
structure Coll where
  cid : Nat
  cname : String
deriving DecidableEq, Repr

/-- The mutable state of `bpy.data` / the current scene. `sceneChildren` is
the list of collections linked under the scene's master collection. Fresh
identifiers come from the counters `nextOid` / `nextCid`. -/
structure SceneState where
  objs : List Obj
  colls : List Coll
  sceneChildren : List Nat
  meshes : List MeshBlock
  materials : List Nat
  armatures : List Nat
  nextOid : Nat
  nextCid : Nat
deriving Repr

/-- User count of a mesh data block: the objects whose data it is. -/
def meshUsers (s : SceneState) (m : Nat) : Nat :=
  (s.objs.filter (fun o => o.odata == ObjData.dmesh m)).length

/-- User count of a material: the mesh blocks that reference it. -/
def matUsers (s : SceneState) (mt : Nat) : Nat :=
  (s.meshes.filter (fun me => me.mats.contains mt)).length

/-- User count of an armature data block: the objects whose data it is. -/
def armUsers (s : SceneState) (a : Nat) : Nat :=
  (s.objs.filter (fun o => o.odata == ObjData.darm a)).length

/-- Objects linked into collection `c`. -/
def collMembers (s : SceneState) (c : Nat) : List Obj :=
  s.objs.filter (fun o => o.colls.contains c)

/-! ### Host oracle and world -/

/-- What the host importer creates for one new object: its type tag, the
location the importer gives it, the collections the importer links it into,
and its data block. -/
structure NewObjSpec where
  ntype : String
  nloc : ℚ × ℚ × ℚ
  nlinks : List Nat
  ndata : ObjData
deriving DecidableEq, Repr

/-- Host operators the scripts invoke, recorded for the trace. -/
inductive HostOp where
  | fbxImport (path : String)
  | gltfImport (path : String)
  | plyImport (path : String)
  | viewAll
deriving DecidableEq, Repr

/-- The oracle for everything outside the scripts: which paths exist on disk,
what each host import operator does at a given path (creates a batch of
objects, or raises with a message), and whether `view3d.view_all` raises. -/
structure Host where
  fileExists : String → Bool
  importOutcome : String → Except String (List NewObjSpec)
  viewAllOutcome : Except String Unit

/-- A world: the scene plus the printed lines and the invoked host import /
framing operators, in order. -/
structure World where
  scene : SceneState
  out : List String
  ops : List HostOp

/-- Append printed lines. -/
def addOut (w : World) (ls : List String) : World :=
  { w with out := w.out ++ ls }

/-- Give the `count` freshly imported objects their identities, starting at
`base`. -/
def mkNew (base : Nat) : List NewObjSpec → List Obj
  | [] => []
  | sp :: rest => ⟨base, sp.ntype, sp.nloc, sp.nlinks, sp.ndata⟩ :: mkNew (base + 1) rest

/-- Effect of a successful host import on the scene: the new objects are
appended to `bpy.data.objects` with fresh identities. -/
def addObjs (specs : List NewObjSpec) (s : SceneState) : SceneState :=
  { s with objs := s.objs ++ mkNew s.nextOid specs, nextOid := s.nextOid + specs.length }

/-! ### `import_meshes_to_blender.py` -/

namespace ImportMeshes

/-- The results directory constant of the script. -/
def RESULTS_DIR : String := "/Users/yubo/github/UniRig/results"

/-- The configured list of mesh files to import. -/
def MESH_FILES : List String := ["mesh_skin_rigged.glb"]

/-- Model of `clear_scene`: select all + delete removes every object, then the
three loops drop mesh, material and armature data blocks whose user count is
zero, in that order, with user counts read from the current state. -/
def clear_scene (s : SceneState) : SceneState :=
  let s1 := { s with objs := [] }
  let s2 := { s1 with meshes := s1.meshes.filter (fun m => meshUsers s1 m.mid != 0) }
  let s3 := { s2 with materials := s2.materials.filter (fun mt => matUsers s2 mt != 0) }
  { s3 with armatures := s3.armatures.filter (fun a => armUsers s3 a != 0) }

/-- Model of `import_file`: dispatch on the lowercased extension; a supported
extension invokes the matching host operator, which either creates its objects
(return `true`) or raises (message printed, return `false`); an unsupported
extension prints a message and returns `false` without touching the host. -/
def import_file (h : Host) (p : FPath) (w : World) : Bool × World :=
  let ext := pyLower p.suffix
  if ext = ".fbx" then
    match h.importOutcome p.str with
    | Except.ok specs =>
        (true, { scene := addObjs specs w.scene,
                 out := w.out ++ ["✓ Imported FBX: " ++ p.fname],
                 ops := w.ops ++ [HostOp.fbxImport p.str] })
    | Except.error e =>
        (false, { w with out := w.out ++ ["✗ Error importing " ++ p.fname ++ ": " ++ e],
                         ops := w.ops ++ [HostOp.fbxImport p.str] })
  else if ext = ".glb" ∨ ext = ".gltf" then
    match h.importOutcome p.str with
    | Except.ok specs =>
        (true, { scene := addObjs specs w.scene,
                 out := w.out ++ ["✓ Imported GLB/GLTF: " ++ p.fname],
                 ops := w.ops ++ [HostOp.gltfImport p.str] })
    | Except.error e =>
        (false, { w with out := w.out ++ ["✗ Error importing " ++ p.fname ++ ": " ++ e],
                         ops := w.ops ++ [HostOp.gltfImport p.str] })
  else
    (false, { w with out := w.out ++ ["✗ Unsupported file format: " ++ p.fname] })

end ImportMeshes

/-! ### `view_ply.py` -/

namespace ViewPly

/-- The hard-coded PLY file of the script. -/
def PLY_FILE : FPath := ⟨"/Users/yubo/github/FreeSplatter/output", "gs_vis.ply"⟩

/-- Model of the PLY script's `clear_scene`: like the mesh script's, but with
no purge pass over armature data blocks. -/
def clear_scene (s : SceneState) : SceneState :=
  let s1 := { s with objs := [] }
  let s2 := { s1 with meshes := s1.meshes.filter (fun m => meshUsers s1 m.mid != 0) }
  { s2 with materials := s2.materials.filter (fun mt => matUsers s2 mt != 0) }

/-- Model of `import_ply`: invoke the PLY host operator; on success return
`true`, on an exception print the message and return `false`. -/
def import_ply (h : Host) (p : FPath) (w : World) : Bool × World :=
  match h.importOutcome p.str with
  | Except.ok specs =>
      (true, { scene := addObjs specs w.scene,
               out := w.out ++ ["✓ Imported PLY: " ++ p.fname],
               ops := w.ops ++ [HostOp.plyImport p.str] })
  | Except.error e =>
      (false, { w with out := w.out ++ ["✗ Error importing " ++ p.fname ++ ": " ++ e],
                       ops := w.ops ++ [HostOp.plyImport p.str] })

end ViewPly

/-! ### Shared scene helpers (object mutation, set-diff, categorization) -/

/-- New-object detection, the snapshot-diff of the scripts:
`set(bpy.data.objects) - existing_objects`, with objects identified by `oid`. -/
def new_objects (after : List Obj) (existing : List Nat) : List Obj :=
  after.filter (fun o => !(existing.contains o.oid))

/-- The categorization loop of `create_collection_for_each_file`: each object
is appended to the mesh, armature or other bucket according to its type. -/
def categorize : List Obj → List Obj × List Obj × List Obj
  | [] => ([], [], [])
  | o :: rest =>
    let r := categorize rest
    if o.otype = "MESH" then (o :: r.1, r.2.1, r.2.2)
    else if o.otype = "ARMATURE" then (r.1, o :: r.2.1, r.2.2)
    else (r.1, r.2.1, o :: r.2.2)

/-- Pointwise effect on one object of unlinking it from all its collections
and linking it into `c`, when it is one of the listed objects. -/
def collsTo (c : Nat) (ids : List Nat) (o : Obj) : Obj :=
  if ids.contains o.oid then { o with colls := [c] } else o

/-- Pointwise effect on one object of the location assignment, when it is one
of the listed objects. -/
def locTo (l : ℚ × ℚ × ℚ) (ids : List Nat) (o : Obj) : Obj :=
  if ids.contains o.oid then { o with loc := l } else o

/-- Unlink each listed object from every collection it belongs to and link it
into collection `c` (the per-object loop body of the script). -/
def relink (s : SceneState) (ids : List Nat) (c : Nat) : SceneState :=
  { s with objs := s.objs.map (collsTo c ids) }

/-- Set the location of each listed object (the per-bucket location loops). -/
def setLoc (s : SceneState) (ids : List Nat) (l : ℚ × ℚ × ℚ) : SceneState :=
  { s with objs := s.objs.map (locTo l ids) }

/-- Python dict as an insertion-ordered association list; assignment replaces
the value of an existing key and otherwise appends. -/
abbrev Dict := List (String × Nat)

/-- Python dict assignment `d[k] = v`. -/
def dictInsert (d : Dict) (k : String) (v : Nat) : Dict :=
  if d.any (fun kv => kv.1 == k) then d.map (fun kv => if kv.1 == k then (k, v) else kv)
  else d ++ [(k, v)]

/-! ### Screen layout and the camera-framing block -/

/-- A region of a screen area (`area.regions`). -/
structure Region where
  rtype : String
deriving DecidableEq, Repr

/-- A screen area (`bpy.context.screen.areas`). -/
structure Area where
  atype : String
  regions : List Region
deriving DecidableEq, Repr

/-- The current screen layout. -/
structure Screen where
  areas : List Area
deriving DecidableEq, Repr

/-- The first VIEW_3D area: both scripts break out of the area loop after the
first area of that type. -/
def firstV3D (sc : Screen) : Option Area :=
  sc.areas.find? (fun a => a.atype == "VIEW_3D")

/-- The first WINDOW region of an area: the region loop breaks after it. -/
def firstWindow (a : Area) : Option Region :=
  a.regions.find? (fun r => r.rtype == "WINDOW")

/-- The `try` block framing all objects: scan for the first VIEW_3D area and
its first WINDOW region; only if both exist is `view3d.view_all` invoked, and
if it raises, the note and tip lines are printed and execution continues. -/
def tryFrameBlock (h : Host) (sc : Screen) (tipLine : String) (w : World) : World :=
  match firstV3D sc with
  | none => w
  | some a =>
    match firstWindow a with
    | none => w
    | some _ =>
      match h.viewAllOutcome with
      | Except.ok _ => { w with ops := w.ops ++ [HostOp.viewAll] }
      | Except.error e =>
          { w with ops := w.ops ++ [HostOp.viewAll],
                   out := w.out ++ ["Note: Could not auto-frame view: " ++ e, tipLine] }

/-- The 60-character separator line the scripts print. -/
def sepLine : String := String.mk (List.replicate 60 '=')

namespace ImportMeshes

/-- The per-file Y offset of the layout: `y_offset = i * 3.0`. -/
def y_offset (i : Nat) : ℚ := (i : ℚ) * 3

/-- The success branch of the loop body: find the newly created objects via
the snapshot diff, relink each into the dedicated collection, categorize them
into the three buckets, and move each bucket to the file's Y offset. -/
def processNew (cid : Nat) (i : Nat) (existing : List Nat) (s : SceneState) : SceneState :=
  let newObjs := new_objects s.objs existing
  let s2 := relink s (newObjs.map Obj.oid) cid
  let buckets := categorize newObjs
  let yo := y_offset i
  let s3 := setLoc s2 (buckets.1.map Obj.oid) (0, yo, 0)
  let s4 := setLoc s3 (buckets.2.1.map Obj.oid) (0, yo, 0)
  setLoc s4 (buckets.2.2.map Obj.oid) (0, yo, 0)

/-- One iteration of the loop of `create_collection_for_each_file`, at index
`i` over `filename`, on the world plus the collections dict. A missing file
is reported and skipped; otherwise a collection is created, linked under the
scene and recorded, the object set is snapshotted, the file is imported, and
on success the newly created objects are processed by `processNew`. -/
def ccfeStep (h : Host) (i : Nat) (filename : String) (wd : World × Dict) : World × Dict :=
  let w := wd.1
  let filepath : FPath := ⟨RESULTS_DIR, filename⟩
  if h.fileExists filepath.str then
    let cid := w.scene.nextCid
    let s1 := { w.scene with
                colls := w.scene.colls ++ [⟨cid, filepath.stem⟩],
                sceneChildren := w.scene.sceneChildren ++ [cid],
                nextCid := cid + 1 }
    let d1 := dictInsert wd.2 filename cid
    let existing := s1.objs.map Obj.oid
    let r := import_file h filepath { w with scene := s1 }
    if r.1 then
      ({ r.2 with scene := processNew cid i existing r.2.scene }, d1)
    else
      (r.2, d1)
  else
    ({ w with out := w.out ++ ["✗ File not found: " ++ filepath.str] }, wd.2)

/-- The `enumerate(MESH_FILES)` loop, starting at index `i`. -/
def ccfeLoop (h : Host) (i : Nat) : List String → World × Dict → World × Dict
  | [], wd => wd
  | f :: rest, wd => ccfeLoop h (i + 1) rest (ccfeStep h i f wd)

/-- Model of `create_collection_for_each_file`: run the loop over the
configured file list with an initially empty collections dict. -/
def create_collection_for_each_file (h : Host) (w : World) : World × Dict :=
  ccfeLoop h 0 MESH_FILES (w, [])

/-- The default spacing of `arrange_objects_in_row`. -/
def DEFAULT_SPACING : ℚ := 5

/-- The object filter of `arrange_objects_in_row`. -/
def rowObjects (s : SceneState) : List Obj :=
  s.objs.filter (fun o => ["MESH", "ARMATURE", "EMPTY"].contains o.otype)

/-- The `enumerate` loop of `arrange_objects_in_row`, carrying the running
index. -/
def arrangeLocs (objects : List Obj) (start : Nat) (spacing : ℚ) (s : SceneState) : SceneState :=
  match objects with
  | [] => s
  | o :: rest => arrangeLocs rest (start + 1) spacing (setLoc s [o.oid] ((start : ℚ) * spacing, 0, 0))

/-- Model of `arrange_objects_in_row`: every mesh/armature/empty object, in
scene order, is placed at `(index * spacing, 0, 0)`. -/
def arrange_objects_in_row (spacing : ℚ) (s : SceneState) : SceneState :=
  arrangeLocs (rowObjects s) 0 spacing s

/-- The trailing tips block of `main` (verbatim text immaterial to the
claims; quote characters elided). -/
def mainTips : List String :=
  ["Layout: Files arranged along Y-axis (top to bottom)",
   "        Within each file: mesh (left) | armature (right)",
   "Each file is in its own collection - you can toggle visibility in the Outliner."]

/-- Model of `main`: header prints, scene clear, the collection/import loop,
the viewport and armature display passes (display-only state, not modeled
beyond their prints), the guarded framing block, and the summary whose count
is the size of the returned collections dict. -/
def main (h : Host) (sc : Screen) (w : World) : World × Dict :=
  let w1 := addOut w ["\n" ++ sepLine,
    "UniRig Mesh Viewer - Importing mesh files into Blender", sepLine ++ "\n"]
  let w2a := addOut w1 ["Clearing scene..."]
  let w2 := { w2a with scene := clear_scene w2a.scene }
  let w3 := addOut w2 ["\nImporting files with separate collections:"]
  let r := create_collection_for_each_file h w3
  let w4 := addOut r.1 ["\nSetting up viewport..."]
  let w5 := addOut w4 ["Configuring bone display..."]
  let w6 := tryFrameBlock h sc ("Tip: Press Home key in Blender to frame all objects") w5
  let w7 := addOut w6 ["\n" ++ sepLine,
    "✓ Successfully imported " ++ toString r.2.length ++ " file(s)",
    sepLine ++ "\n"]
  (addOut w7 mainTips, r.2)

end ImportMeshes

namespace ViewPly

/-- Model of the PLY script's `main`: header prints, the existence check that
returns before any scene mutation when the file is missing, scene clear, the
guarded import, and on success the viewport setup, framing block and summary. -/
def main (h : Host) (sc : Screen) (w : World) : World :=
  let w1 := addOut w ["\n" ++ sepLine,
    "PLY Viewer - Importing PLY file into Blender", sepLine ++ "\n"]
  if h.fileExists PLY_FILE.str then
    let w2a := addOut w1 ["Clearing scene..."]
    let w2 := { w2a with scene := clear_scene w2a.scene }
    let w3 := addOut w2 ["\nImporting: " ++ PLY_FILE.str]
    let r := import_ply h PLY_FILE w3
    if r.1 then
      let w4 := addOut r.2 ["\nSetting up viewport..."]
      let w5 := tryFrameBlock h sc ("Tip: Press Home to frame the object") w4
      addOut w5 ["\n" ++ sepLine, "✓ Successfully imported PLY file", sepLine ++ "\n"]
    else r.2
  else
    addOut w1 ["✗ File not found: " ++ PLY_FILE.str]

end ViewPly

/-! ### Scene invariants -/

/-- Well-formedness: every live object identifier is below the counter. -/
def Inv (s : SceneState) : Prop :=
  ∀ o ∈ s.objs, o.oid < s.nextOid

/-- Well-formedness: every collection an object is linked into is below the
collection counter. -/
def InvC (s : SceneState) : Prop :=
  ∀ o ∈ s.objs, ∀ c ∈ o.colls, c < s.nextCid

namespace ImportMeshes

/-- The world just after the dedicated collection for `f` has been created
and linked under the scene (an abbreviation for stating lemmas about
`ccfeStep`). -/
def stage1 (w : World) (f : String) : World :=
  { w with scene := { w.scene with
      colls := w.scene.colls ++ [⟨w.scene.nextCid, pyStem f⟩],
      sceneChildren := w.scene.sceneChildren ++ [w.scene.nextCid],
      nextCid := w.scene.nextCid + 1 } }

end ImportMeshes

/-! ### Concrete fixtures used to exercise the theorems -/

/-- The empty scene. -/
def emptyScene : SceneState := ⟨[], [], [], [], [], [], 0, 0⟩

/-- A world with an empty scene and no output yet. -/
def emptyWorld : World := ⟨emptyScene, [], []⟩

/-- A scene holding one armature object whose data block is armature `0`. -/
def exSceneC4 : SceneState :=
  ⟨[⟨0, "ARMATURE", (0, 0, 0), [], ObjData.darm 0⟩], [], [], [], [], [0], 1, 0⟩

/-- A sample object. -/
def obX : Obj := ⟨5, "MESH", (0, 0, 0), [], ObjData.dnone⟩

/-- A host on which every path exists, every import succeeds creating one
mesh object, and the view-all operator raises. -/
def hostA : Host :=
  ⟨fun _ => true, fun _ => Except.ok [⟨"MESH", (7, 7, 7), [], ObjData.dnone⟩],
   Except.error ("no window")⟩

/-- A host on which no path exists. -/
def hostB : Host :=
  ⟨fun _ => false, fun _ => Except.error ("fail"), Except.ok ()⟩

/-- A host on which every path exists but every import raises. -/
def hostC : Host :=
  ⟨fun _ => true, fun _ => Except.error ("corrupt"), Except.ok ()⟩

/-- A screen with no areas at all. -/
def screenEmpty : Screen := ⟨[]⟩

/-- A path with an unsupported extension. -/
def pObj : FPath := ⟨"/tmp", "model.obj"⟩

/-- A path with a supported extension. -/
def pGlb : FPath := ⟨"/tmp", "model.glb"⟩

/-- A scene with one mesh and one empty object, for the row arrangement. -/
def exSceneC9 : SceneState :=
  ⟨[⟨0, "MESH", (9, 9, 9), [], ObjData.dnone⟩, ⟨1, "EMPTY", (8, 8, 8), [], ObjData.dnone⟩],
   [], [], [], [], [], 2, 0⟩

/-! ### Basic lemmas on the pointwise object updates -/

theorem collsTo_oid (c : Nat) (ids : List Nat) (o : Obj) : (collsTo c ids o).oid = o.oid := by
  unfold collsTo; split <;> rfl

theorem collsTo_otype (c : Nat) (ids : List Nat) (o : Obj) : (collsTo c ids o).otype = o.otype := by
  unfold collsTo; split <;> rfl

theorem collsTo_loc (c : Nat) (ids : List Nat) (o : Obj) : (collsTo c ids o).loc = o.loc := by
  unfold collsTo; split <;> rfl

theorem locTo_oid (l : ℚ × ℚ × ℚ) (ids : List Nat) (o : Obj) : (locTo l ids o).oid = o.oid := by
  unfold locTo; split <;> rfl

theorem locTo_otype (l : ℚ × ℚ × ℚ) (ids : List Nat) (o : Obj) :
    (locTo l ids o).otype = o.otype := by
  unfold locTo; split <;> rfl

theorem locTo_colls (l : ℚ × ℚ × ℚ) (ids : List Nat) (o : Obj) :
    (locTo l ids o).colls = o.colls := by
  unfold locTo; split <;> rfl

theorem locTo_loc_of_eq (l : ℚ × ℚ × ℚ) (ids : List Nat) (o : Obj) (h : o.loc = l) :
    (locTo l ids o).loc = l := by
  unfold locTo; split <;> simp [h]

theorem locTo_loc_of_mem (l : ℚ × ℚ × ℚ) (ids : List Nat) (o : Obj) (h : o.oid ∈ ids) :
    (locTo l ids o).loc = l := by
  simp [locTo, h]

theorem collsTo_colls_of_mem (c : Nat) (ids : List Nat) (o : Obj) (h : o.oid ∈ ids) :
    (collsTo c ids o).colls = [c] := by
  simp [collsTo, h]

theorem collsTo_of_not_mem (c : Nat) (ids : List Nat) (o : Obj) (h : o.oid ∉ ids) :
    collsTo c ids o = o := by
  simp [collsTo, h]

theorem locTo_of_not_mem (l : ℚ × ℚ × ℚ) (ids : List Nat) (o : Obj) (h : o.oid ∉ ids) :
    locTo l ids o = o := by
  simp [locTo, h]

/-! ### Lemmas on freshly created objects -/

theorem mkNew_length (specs : List NewObjSpec) : ∀ base, (mkNew base specs).length = specs.length := by
  induction specs with
  | nil => intro base; rfl
  | cons sp rest ih => intro base; simp [mkNew, ih]

theorem mkNew_map_oid (specs : List NewObjSpec) :
    ∀ base, (mkNew base specs).map Obj.oid = List.range' base specs.length := by
  induction specs with
  | nil => intro base; rfl
  | cons sp rest ih => intro base; simp [mkNew, List.range', ih]

theorem oid_bounds_of_mem_mkNew {specs : List NewObjSpec} {base : Nat} {o : Obj}
    (h : o ∈ mkNew base specs) : base ≤ o.oid ∧ o.oid < base + specs.length := by
  have h1 : o.oid ∈ (mkNew base specs).map Obj.oid := List.mem_map_of_mem _ h
  rw [mkNew_map_oid] at h1
  exact List.mem_range'_1.mp h1

theorem addObjs_objs (specs : List NewObjSpec) (s : SceneState) :
    (addObjs specs s).objs = s.objs ++ mkNew s.nextOid specs := rfl

/-! ### Lemmas on categorization and the snapshot diff -/

theorem categorize_eq (os : List Obj) :
    categorize os = (os.filter (fun o => o.otype == "MESH"),
                     os.filter (fun o => o.otype == "ARMATURE"),
                     os.filter (fun o => !(o.otype == "MESH") && !(o.otype == "ARMATURE"))) := by
  induction os with
  | nil => rfl
  | cons o rest ih =>
    rw [categorize]
    by_cases h1 : o.otype = "MESH"
    · have h2 : o.otype ≠ "ARMATURE" := by rw [h1]; decide
      have b1 : (o.otype == "MESH") = true := beq_iff_eq.mpr h1
      have b2 : (o.otype == "ARMATURE") = false := beq_eq_false_iff_ne.mpr h2
      simp [ih, List.filter, h1, b1, b2]
    · have b1 : (o.otype == "MESH") = false := beq_eq_false_iff_ne.mpr h1
      by_cases h2 : o.otype = "ARMATURE"
      · have b2 : (o.otype == "ARMATURE") = true := beq_iff_eq.mpr h2
        simp [ih, List.filter, h1, h2, b1, b2]
      · have b2 : (o.otype == "ARMATURE") = false := beq_eq_false_iff_ne.mpr h2
        simp [ih, List.filter, h1, h2, b1, b2]

theorem mem_new_objects {after : List Obj} {existing : List Nat} {o : Obj} :
    o ∈ new_objects after existing ↔ o ∈ after ∧ o.oid ∉ existing := by
  simp [new_objects]

namespace ImportMeshes

/-! ### Characterization of `import_file` -/

theorem import_file_fst_congr (h : Host) (p : FPath) (w w' : World) :
    (import_file h p w).1 = (import_file h p w').1 := by
  by_cases h1 : pyLower p.suffix = ".fbx" <;>
    by_cases h2 : pyLower p.suffix = ".glb" ∨ pyLower p.suffix = ".gltf" <;>
      cases hoc : h.importOutcome p.str <;>
        simp [import_file, h1, h2, hoc]

theorem import_file_cases (h : Host) (p : FPath) (w : World) :
    ((import_file h p w).1 = true ∧ ∃ specs, h.importOutcome p.str = Except.ok specs ∧
        (import_file h p w).2.scene = addObjs specs w.scene) ∨
    ((import_file h p w).1 = false ∧ (import_file h p w).2.scene = w.scene) := by
  by_cases h1 : pyLower p.suffix = ".fbx"
  · cases hoc : h.importOutcome p.str with
    | ok specs => exact Or.inl ⟨by simp [import_file, h1, hoc], specs, rfl,
        by simp [import_file, h1, hoc]⟩
    | error e => exact Or.inr ⟨by simp [import_file, h1, hoc], by simp [import_file, h1, hoc]⟩
  · by_cases h2 : pyLower p.suffix = ".glb" ∨ pyLower p.suffix = ".gltf"
    · cases hoc : h.importOutcome p.str with
      | ok specs => exact Or.inl ⟨by simp [import_file, h1, h2, hoc], specs, rfl,
          by simp [import_file, h1, h2, hoc]⟩
      | error e => exact Or.inr ⟨by simp [import_file, h1, h2, hoc],
          by simp [import_file, h1, h2, hoc]⟩
    · exact Or.inr ⟨by simp [import_file, h1, h2], by simp [import_file, h1, h2]⟩

theorem import_file_false_scene (h : Host) (p : FPath) (w : World)
    (hf : (import_file h p w).1 = false) : (import_file h p w).2.scene = w.scene := by
  rcases import_file_cases h p w with ⟨ht, _⟩ | ⟨_, hs⟩
  · rw [ht] at hf; cases hf
  · exact hs

/-! ### Specification of `processNew` -/

theorem processNew_fields (cid i : Nat) (existing : List Nat) (s : SceneState) :
    (processNew cid i existing s).colls = s.colls ∧
    (processNew cid i existing s).sceneChildren = s.sceneChildren ∧
    (processNew cid i existing s).meshes = s.meshes ∧
    (processNew cid i existing s).materials = s.materials ∧
    (processNew cid i existing s).armatures = s.armatures ∧
    (processNew cid i existing s).nextOid = s.nextOid ∧
    (processNew cid i existing s).nextCid = s.nextCid :=
  ⟨rfl, rfl, rfl, rfl, rfl, rfl, rfl⟩

theorem processNew_objs_eq (cid i : Nat) (existing : List Nat) (s : SceneState) :
    (processNew cid i existing s).objs
      = s.objs.map
          (locTo (0, y_offset i, 0) (((categorize (new_objects s.objs existing)).2.2).map Obj.oid)
            ∘ locTo (0, y_offset i, 0) (((categorize (new_objects s.objs existing)).2.1).map Obj.oid)
            ∘ locTo (0, y_offset i, 0) (((categorize (new_objects s.objs existing)).1).map Obj.oid)
            ∘ collsTo cid ((new_objects s.objs existing).map Obj.oid)) := by
  unfold processNew relink setLoc
  simp [List.map_map, Function.comp]

theorem processNew_objs_spec (cid i : Nat) (existing : List Nat) (old nw : List Obj)
    (s : SceneState) (hobjs : s.objs = old ++ nw)
    (hold : ∀ o ∈ old, o.oid ∈ existing)
    (hnew : ∀ o ∈ nw, o.oid ∉ existing) :
    ∃ newList : List Obj,
      (processNew cid i existing s).objs = old ++ newList ∧
      newList.map Obj.oid = nw.map Obj.oid ∧
      (∀ o ∈ newList, o.colls = [cid] ∧ o.loc = (0, y_offset i, 0)) := by
  have hno : new_objects s.objs existing = nw := by
    unfold new_objects
    rw [hobjs, List.filter_append]
    have hfo : old.filter (fun o => !(existing.contains o.oid)) = [] := by
      apply List.filter_eq_nil_iff.mpr
      intro o ho
      simp [hold o ho]
    have hfn : nw.filter (fun o => !(existing.contains o.oid)) = nw := by
      apply List.filter_eq_self.mpr
      intro o ho
      simp [hnew o ho]
    rw [hfo, hfn, List.nil_append]
  have hsep : ∀ o ∈ old, o.oid ∉ nw.map Obj.oid := by
    intro o ho hmem
    obtain ⟨x, hx, hxeq⟩ := List.mem_map.mp hmem
    exact hnew x hx (hxeq ▸ hold o ho)
  have hsub1 : ∀ a ∈ ((categorize nw).1).map Obj.oid, a ∈ nw.map Obj.oid := by
    intro a ha
    rw [categorize_eq] at ha
    obtain ⟨x, hx, hxeq⟩ := List.mem_map.mp ha
    exact hxeq ▸ List.mem_map_of_mem _ (List.mem_of_mem_filter hx)
  have hsub2 : ∀ a ∈ ((categorize nw).2.1).map Obj.oid, a ∈ nw.map Obj.oid := by
    intro a ha
    rw [categorize_eq] at ha
    obtain ⟨x, hx, hxeq⟩ := List.mem_map.mp ha
    exact hxeq ▸ List.mem_map_of_mem _ (List.mem_of_mem_filter hx)
  have hsub3 : ∀ a ∈ ((categorize nw).2.2).map Obj.oid, a ∈ nw.map Obj.oid := by
    intro a ha
    rw [categorize_eq] at ha
    obtain ⟨x, hx, hxeq⟩ := List.mem_map.mp ha
    exact hxeq ▸ List.mem_map_of_mem _ (List.mem_of_mem_filter hx)
  refine ⟨nw.map
      (locTo (0, y_offset i, 0) (((categorize nw).2.2).map Obj.oid)
        ∘ locTo (0, y_offset i, 0) (((categorize nw).2.1).map Obj.oid)
        ∘ locTo (0, y_offset i, 0) (((categorize nw).1).map Obj.oid)
        ∘ collsTo cid (nw.map Obj.oid)), ?_, ?_, ?_⟩
  · rw [processNew_objs_eq, hno, hobjs, List.map_append]
    congr 1
    have holdF : ∀ o ∈ old,
        (locTo (0, y_offset i, 0) (((categorize nw).2.2).map Obj.oid)
          ∘ locTo (0, y_offset i, 0) (((categorize nw).2.1).map Obj.oid)
          ∘ locTo (0, y_offset i, 0) (((categorize nw).1).map Obj.oid)
          ∘ collsTo cid (nw.map Obj.oid)) o = o := by
      intro o ho
      have hnid : o.oid ∉ nw.map Obj.oid := hsep o ho
      have hn1 : o.oid ∉ ((categorize nw).1).map Obj.oid := fun hc => hnid (hsub1 _ hc)
      have hn2 : o.oid ∉ ((categorize nw).2.1).map Obj.oid := fun hc => hnid (hsub2 _ hc)
      have hn3 : o.oid ∉ ((categorize nw).2.2).map Obj.oid := fun hc => hnid (hsub3 _ hc)
      simp only [Function.comp_apply]
      rw [collsTo_of_not_mem _ _ _ hnid, locTo_of_not_mem _ _ _ hn1,
          locTo_of_not_mem _ _ _ hn2, locTo_of_not_mem _ _ _ hn3]
    calc old.map _ = old.map id := List.map_congr_left holdF
    _ = old := List.map_id old
  · rw [List.map_map]
    apply List.map_congr_left
    intro x _
    simp only [Function.comp_apply, locTo_oid, collsTo_oid]
  · intro o ho
    obtain ⟨x, hx, rfl⟩ := List.mem_map.mp ho
    have hxid : x.oid ∈ nw.map Obj.oid := List.mem_map_of_mem _ hx
    constructor
    · simp only [Function.comp_apply, locTo_colls]
      exact collsTo_colls_of_mem _ _ _ hxid
    · simp only [Function.comp_apply]
      rcases (show x.otype = "MESH" ∨ x.otype = "ARMATURE" ∨
          (x.otype ≠ "MESH" ∧ x.otype ≠ "ARMATURE") by tauto) with hM | hA | ⟨hm, ha⟩
      · have hmem1 : x.oid ∈ ((categorize nw).1).map Obj.oid := by
          rw [categorize_eq]
          exact List.mem_map_of_mem _ (List.mem_filter.mpr ⟨hx, by simp [hM]⟩)
        have s1 : (locTo (0, y_offset i, 0) (((categorize nw).1).map Obj.oid)
            (collsTo cid (nw.map Obj.oid) x)).loc = (0, y_offset i, 0) :=
          locTo_loc_of_mem _ _ _ (by rw [collsTo_oid]; exact hmem1)
        exact locTo_loc_of_eq _ _ _ (locTo_loc_of_eq _ _ _ s1)
      · have hmem2 : x.oid ∈ ((categorize nw).2.1).map Obj.oid := by
          rw [categorize_eq]
          exact List.mem_map_of_mem _ (List.mem_filter.mpr ⟨hx, by simp [hA]⟩)
        have s2 : (locTo (0, y_offset i, 0) (((categorize nw).2.1).map Obj.oid)
            (locTo (0, y_offset i, 0) (((categorize nw).1).map Obj.oid)
              (collsTo cid (nw.map Obj.oid) x))).loc = (0, y_offset i, 0) :=
          locTo_loc_of_mem _ _ _ (by rw [locTo_oid, collsTo_oid]; exact hmem2)
        exact locTo_loc_of_eq _ _ _ s2
      · have hmem3 : x.oid ∈ ((categorize nw).2.2).map Obj.oid := by
          rw [categorize_eq]
          refine List.mem_map_of_mem _ (List.mem_filter.mpr ⟨hx, ?_⟩)
          simp [hm, ha]
        exact locTo_loc_of_mem _ _ _
          (by rw [locTo_oid, locTo_oid, collsTo_oid]; exact hmem3)

/-! ### Specification of one loop iteration -/

theorem ccfeStep_exists_eq (h : Host) (i : Nat) (f : String) (w : World) (d : Dict)
    (hex : h.fileExists (FPath.str ⟨RESULTS_DIR, f⟩) = true) :
    ccfeStep h i f (w, d)
      = (if (import_file h ⟨RESULTS_DIR, f⟩ (stage1 w f)).1 then
           ({ (import_file h ⟨RESULTS_DIR, f⟩ (stage1 w f)).2 with
              scene := processNew w.scene.nextCid i (w.scene.objs.map Obj.oid)
                         (import_file h ⟨RESULTS_DIR, f⟩ (stage1 w f)).2.scene },
            dictInsert d f w.scene.nextCid)
         else ((import_file h ⟨RESULTS_DIR, f⟩ (stage1 w f)).2,
            dictInsert d f w.scene.nextCid)) := by
  simp [ccfeStep, stage1, hex, FPath.stem]

theorem ccfeStep_missing (h : Host) (i : Nat) (f : String) (w : World) (d : Dict)
    (hex : h.fileExists (FPath.str ⟨RESULTS_DIR, f⟩) = false) :
    ccfeStep h i f (w, d)
      = ({ w with out := w.out ++ ["✗ File not found: " ++ FPath.str ⟨RESULTS_DIR, f⟩] }, d) := by
  simp [ccfeStep, hex]

theorem ccfeStep_dict (h : Host) (i : Nat) (f : String) (w : World) (d : Dict)
    (hex : h.fileExists (FPath.str ⟨RESULTS_DIR, f⟩) = true) :
    (ccfeStep h i f (w, d)).2 = dictInsert d f w.scene.nextCid := by
  rw [ccfeStep_exists_eq h i f w d hex]
  cases hb : (import_file h ⟨RESULTS_DIR, f⟩ (stage1 w f)).1 <;> simp [hb]

theorem ccfeStep_spec (h : Host) (i : Nat) (f : String) (w : World) (d : Dict)
    (hex : h.fileExists (FPath.str ⟨RESULTS_DIR, f⟩) = true)
    (hinv : Inv w.scene) :
    ∃ newList : List Obj,
      (ccfeStep h i f (w, d)).1.scene.objs = w.scene.objs ++ newList ∧
      newList.map Obj.oid = List.range' w.scene.nextOid newList.length ∧
      (∀ o ∈ newList, o.colls = [w.scene.nextCid] ∧ o.loc = (0, y_offset i, 0)) ∧
      (ccfeStep h i f (w, d)).1.scene.nextOid = w.scene.nextOid + newList.length ∧
      (ccfeStep h i f (w, d)).1.scene.nextCid = w.scene.nextCid + 1 ∧
      (ccfeStep h i f (w, d)).1.scene.colls
        = w.scene.colls ++ [⟨w.scene.nextCid, pyStem f⟩] ∧
      (ccfeStep h i f (w, d)).1.scene.sceneChildren
        = w.scene.sceneChildren ++ [w.scene.nextCid] ∧
      (ccfeStep h i f (w, d)).2 = dictInsert d f w.scene.nextCid ∧
      ((import_file h ⟨RESULTS_DIR, f⟩ w).1 = false → newList = []) := by
  rw [ccfeStep_exists_eq h i f w d hex]
  cases hb : (import_file h ⟨RESULTS_DIR, f⟩ (stage1 w f)).1 with
  | false =>
    have hsc : (import_file h ⟨RESULTS_DIR, f⟩ (stage1 w f)).2.scene = (stage1 w f).scene :=
      import_file_false_scene _ _ _ hb
    simp only [stage1] at hsc
    refine ⟨[], ?_, rfl, ?_, ?_, ?_, ?_, ?_, ?_, ?_⟩ <;>
      simp [hsc, stage1]
  | true =>
    rcases import_file_cases h ⟨RESULTS_DIR, f⟩ (stage1 w f) with
      ⟨_, specs, hoc, hscene⟩ | ⟨hfalse, _⟩
    · have hobjs : (import_file h ⟨RESULTS_DIR, f⟩ (stage1 w f)).2.scene.objs
          = w.scene.objs ++ mkNew w.scene.nextOid specs := by
        rw [hscene]; rfl
      have hnew : ∀ o ∈ mkNew w.scene.nextOid specs, o.oid ∉ w.scene.objs.map Obj.oid := by
        intro o ho hmem
        obtain ⟨x, hx, hxeq⟩ := List.mem_map.mp hmem
        have hlt : x.oid < w.scene.nextOid := hinv x hx
        have hge : w.scene.nextOid ≤ o.oid := (oid_bounds_of_mem_mkNew ho).1
        omega
      obtain ⟨newList, hobjs2, hmap, hprops⟩ :=
        processNew_objs_spec w.scene.nextCid i (w.scene.objs.map Obj.oid)
          w.scene.objs (mkNew w.scene.nextOid specs)
          (import_file h ⟨RESULTS_DIR, f⟩ (stage1 w f)).2.scene hobjs
          (fun o ho => List.mem_map_of_mem _ ho) hnew
      have hlen : newList.length = specs.length := by
        have h1 : (newList.map Obj.oid).length = ((mkNew w.scene.nextOid specs).map Obj.oid).length := by
          rw [hmap]
        simpa [mkNew_length] using h1
      have hmap2 : newList.map Obj.oid = List.range' w.scene.nextOid newList.length := by
        rw [hmap, mkNew_map_oid, hlen]
      have hfields := processNew_fields w.scene.nextCid i (w.scene.objs.map Obj.oid)
        (import_file h ⟨RESULTS_DIR, f⟩ (stage1 w f)).2.scene
      refine ⟨newList, ?_, hmap2, hprops, ?_, ?_, ?_, ?_, ?_, ?_⟩
      · simpa using hobjs2
      · have : (import_file h ⟨RESULTS_DIR, f⟩ (stage1 w f)).2.scene.nextOid
            = w.scene.nextOid + specs.length := by rw [hscene]; rfl
        simp [hfields.2.2.2.2.2.1, this, hlen]
      · have : (import_file h ⟨RESULTS_DIR, f⟩ (stage1 w f)).2.scene.nextCid
            = w.scene.nextCid + 1 := by rw [hscene]; rfl
        simp [hfields.2.2.2.2.2.2, this]
      · have : (import_file h ⟨RESULTS_DIR, f⟩ (stage1 w f)).2.scene.colls
            = w.scene.colls ++ [⟨w.scene.nextCid, pyStem f⟩] := by rw [hscene]; rfl
        simp [hfields.1, this]
      · have : (import_file h ⟨RESULTS_DIR, f⟩ (stage1 w f)).2.scene.sceneChildren
            = w.scene.sceneChildren ++ [w.scene.nextCid] := by rw [hscene]; rfl
        simp [hfields.2.1, this]
      · simp
      · intro habs
        rw [import_file_fst_congr h ⟨RESULTS_DIR, f⟩ w (stage1 w f)] at habs
        rw [habs] at hb
        cases hb
    · rw [hfalse] at hb; cases hb

/-! ### Invariant preservation and loop lemmas -/

theorem ccfeStep_inv (h : Host) (i : Nat) (f : String) (w : World) (d : Dict)
    (hinv : Inv w.scene) : Inv (ccfeStep h i f (w, d)).1.scene := by
  cases hex : h.fileExists (FPath.str ⟨RESULTS_DIR, f⟩) with
  | false => rw [ccfeStep_missing h i f w d hex]; exact hinv
  | true =>
    obtain ⟨nl, hobjs, hmap, _, hnext, _⟩ := ccfeStep_spec h i f w d hex hinv
    intro o ho
    rw [hobjs] at ho
    rw [hnext]
    rcases List.mem_append.mp ho with hl | hr
    · have := hinv o hl; omega
    · have hm : o.oid ∈ nl.map Obj.oid := List.mem_map_of_mem _ hr
      rw [hmap] at hm
      have := List.mem_range'_1.mp hm
      omega

theorem ccfeStep_invC (h : Host) (i : Nat) (f : String) (w : World) (d : Dict)
    (hinv : Inv w.scene) (hinvc : InvC w.scene) : InvC (ccfeStep h i f (w, d)).1.scene := by
  cases hex : h.fileExists (FPath.str ⟨RESULTS_DIR, f⟩) with
  | false => rw [ccfeStep_missing h i f w d hex]; exact hinvc
  | true =>
    obtain ⟨nl, hobjs, hmap, hprops, hnext, hcid, _⟩ := ccfeStep_spec h i f w d hex hinv
    intro o ho c hc
    rw [hobjs] at ho
    rw [hcid]
    rcases List.mem_append.mp ho with hl | hr
    · have := hinvc o hl c hc; omega
    · have hcolls := (hprops o hr).1
      rw [hcolls] at hc
      simp at hc
      omega

theorem ccfeStep_preserves (h : Host) (i : Nat) (f : String) (w : World) (d : Dict)
    (hinv : Inv w.scene) (o : Obj) (ho : o ∈ w.scene.objs) :
    o ∈ (ccfeStep h i f (w, d)).1.scene.objs := by
  cases hex : h.fileExists (FPath.str ⟨RESULTS_DIR, f⟩) with
  | false => rw [ccfeStep_missing h i f w d hex]; exact ho
  | true =>
    obtain ⟨nl, hobjs, _⟩ := ccfeStep_spec h i f w d hex hinv
    rw [hobjs]
    exact List.mem_append_left _ ho

theorem ccfeLoop_append (h : Host) (xs : List String) :
    ∀ (ys : List String) (i : Nat) (wd : World × Dict),
      ccfeLoop h i (xs ++ ys) wd = ccfeLoop h (i + xs.length) ys (ccfeLoop h i xs wd) := by
  induction xs with
  | nil => intro ys i wd; simp [ccfeLoop]
  | cons x xs ih =>
    intro ys i wd
    simp only [List.cons_append, ccfeLoop, List.length_cons, List.append_eq]
    rw [ih]
    congr 1
    omega

theorem ccfeLoop_inv (h : Host) (files : List String) :
    ∀ (i : Nat) (wd : World × Dict), Inv wd.1.scene → Inv (ccfeLoop h i files wd).1.scene := by
  induction files with
  | nil => intro i wd hinv; exact hinv
  | cons f rest ih =>
    intro i wd hinv
    simp only [ccfeLoop]
    exact ih (i + 1) _ (ccfeStep_inv h i f wd.1 wd.2 hinv)

theorem ccfeLoop_invC (h : Host) (files : List String) :
    ∀ (i : Nat) (wd : World × Dict), Inv wd.1.scene → InvC wd.1.scene →
      InvC (ccfeLoop h i files wd).1.scene := by
  induction files with
  | nil => intro i wd _ hinvc; exact hinvc
  | cons f rest ih =>
    intro i wd hinv hinvc
    simp only [ccfeLoop]
    exact ih (i + 1) _ (ccfeStep_inv h i f wd.1 wd.2 hinv)
      (ccfeStep_invC h i f wd.1 wd.2 hinv hinvc)

theorem ccfeLoop_preserves (h : Host) (files : List String) :
    ∀ (i : Nat) (wd : World × Dict), Inv wd.1.scene →
      ∀ o ∈ wd.1.scene.objs, o ∈ (ccfeLoop h i files wd).1.scene.objs := by
  induction files with
  | nil => intro i wd _ o ho; exact ho
  | cons f rest ih =>
    intro i wd hinv o ho
    simp only [ccfeLoop]
    exact ih (i + 1) _ (ccfeStep_inv h i f wd.1 wd.2 hinv) o
      (ccfeStep_preserves h i f wd.1 wd.2 hinv o ho)

/-! ### The collections dict over the loop -/

theorem dictInsert_fresh (d : Dict) (k : String) (v : Nat) (hk : k ∉ d.map Prod.fst) :
    dictInsert d k v = d ++ [(k, v)] := by
  have hcond : d.any (fun kv => kv.1 == k) = false := by
    rw [List.any_eq_false]
    intro kv hkv
    simp only [beq_iff_eq, beq_eq_false_iff_ne, ne_eq]
    intro heq
    exact hk (heq ▸ List.mem_map_of_mem _ hkv)
  simp [dictInsert, hcond]

theorem ccfeLoop_dict_length (h : Host) (files : List String) :
    ∀ (i : Nat) (w : World) (d : Dict), files.Nodup →
      (∀ g ∈ files, g ∉ d.map Prod.fst) →
      ((ccfeLoop h i files (w, d)).2).length
        = d.length
          + (files.filter (fun g => h.fileExists (FPath.str ⟨RESULTS_DIR, g⟩))).length := by
  induction files with
  | nil => intro i w d _ _; simp [ccfeLoop]
  | cons f rest ih =>
    intro i w d hnd hfresh
    rw [List.nodup_cons] at hnd
    cases hex : h.fileExists (FPath.str ⟨RESULTS_DIR, f⟩) with
    | false =>
      have hstep := ccfeStep_missing h i f w d hex
      simp only [ccfeLoop, hstep]
      rw [ih (i + 1) _ d hnd.2 (fun g hg => hfresh g (List.mem_cons_of_mem _ hg))]
      simp [List.filter, hex]
    | true =>
      have hstep : (ccfeStep h i f (w, d)).2 = d ++ [(f, w.scene.nextCid)] := by
        rw [ccfeStep_dict h i f w d hex]
        exact dictInsert_fresh d f _ (hfresh f (List.mem_cons_self f rest))
      have hfresh2 : ∀ g ∈ rest, g ∉ ((ccfeStep h i f (w, d)).2).map Prod.fst := by
        intro g hg
        rw [hstep]
        simp only [List.map_append, List.mem_append]
        rintro (hin | hin)
        · exact hfresh g (List.mem_cons_of_mem _ hg) hin
        · simp at hin
          exact hnd.1 (hin ▸ hg)
      have heta : ccfeStep h i f (w, d)
          = ((ccfeStep h i f (w, d)).1, (ccfeStep h i f (w, d)).2) := rfl
      simp only [ccfeLoop]
      rw [heta, ih (i + 1) (ccfeStep h i f (w, d)).1 (ccfeStep h i f (w, d)).2 hnd.2 hfresh2,
        hstep]
      simp [List.filter, hex]
      omega

/-! ### Output monotonicity and the summary line of `main` -/

theorem import_file_out_mono (h : Host) (p : FPath) (w : World) :
    ∃ t, (import_file h p w).2.out = w.out ++ t := by
  by_cases h1 : pyLower p.suffix = ".fbx"
  · cases hoc : h.importOutcome p.str with
    | ok specs => exact ⟨["✓ Imported FBX: " ++ p.fname], by simp [import_file, h1, hoc]⟩
    | error e => exact ⟨["✗ Error importing " ++ p.fname ++ ": " ++ e],
        by simp [import_file, h1, hoc]⟩
  · by_cases h2 : pyLower p.suffix = ".glb" ∨ pyLower p.suffix = ".gltf"
    · cases hoc : h.importOutcome p.str with
      | ok specs => exact ⟨["✓ Imported GLB/GLTF: " ++ p.fname],
          by simp [import_file, h1, h2, hoc]⟩
      | error e => exact ⟨["✗ Error importing " ++ p.fname ++ ": " ++ e],
          by simp [import_file, h1, h2, hoc]⟩
    · exact ⟨["✗ Unsupported file format: " ++ p.fname], by simp [import_file, h1, h2]⟩

theorem ccfeStep_out_mono (h : Host) (i : Nat) (f : String) (wd : World × Dict) :
    ∃ t, (ccfeStep h i f wd).1.out = wd.1.out ++ t := by
  cases hex : h.fileExists (FPath.str ⟨RESULTS_DIR, f⟩) with
  | false =>
    refine ⟨["✗ File not found: " ++ FPath.str ⟨RESULTS_DIR, f⟩], ?_⟩
    have hm : ccfeStep h i f wd
        = ({ wd.1 with out := wd.1.out ++ ["✗ File not found: " ++ FPath.str ⟨RESULTS_DIR, f⟩] },
           wd.2) := ccfeStep_missing h i f wd.1 wd.2 hex
    rw [hm]
  | true =>
    obtain ⟨t, ht⟩ := import_file_out_mono h ⟨RESULTS_DIR, f⟩ (stage1 wd.1 f)
    refine ⟨t, ?_⟩
    have he : ccfeStep h i f wd
        = (if (import_file h ⟨RESULTS_DIR, f⟩ (stage1 wd.1 f)).1 then
             ({ (import_file h ⟨RESULTS_DIR, f⟩ (stage1 wd.1 f)).2 with
                scene := processNew wd.1.scene.nextCid i (wd.1.scene.objs.map Obj.oid)
                           (import_file h ⟨RESULTS_DIR, f⟩ (stage1 wd.1 f)).2.scene },
              dictInsert wd.2 f wd.1.scene.nextCid)
           else ((import_file h ⟨RESULTS_DIR, f⟩ (stage1 wd.1 f)).2,
              dictInsert wd.2 f wd.1.scene.nextCid)) := ccfeStep_exists_eq h i f wd.1 wd.2 hex
    rw [he]
    have hst : (stage1 wd.1 f).out = wd.1.out := rfl
    cases hb : (import_file h ⟨RESULTS_DIR, f⟩ (stage1 wd.1 f)).1 <;>
      simp [hb, ht, hst]

theorem ccfeLoop_out_mono (h : Host) (files : List String) :
    ∀ (i : Nat) (wd : World × Dict),
      ∃ t, (ccfeLoop h i files wd).1.out = wd.1.out ++ t := by
  induction files with
  | nil => intro i wd; exact ⟨[], by simp [ccfeLoop]⟩
  | cons f rest ih =>
    intro i wd
    obtain ⟨t1, ht1⟩ := ccfeStep_out_mono h i f wd
    obtain ⟨t2, ht2⟩ := ih (i + 1) (ccfeStep h i f wd)
    exact ⟨t1 ++ t2, by simp only [ccfeLoop]; rw [ht2, ht1, List.append_assoc]⟩

theorem main_summary_line_mem (h : Host) (sc : Screen) (w : World) :
    ("✓ Successfully imported " ++ toString (main h sc w).2.length ++ " file(s)")
      ∈ (main h sc w).1.out := by
  simp only [main, addOut]
  simp [List.mem_append, List.mem_cons]

/-! ### Normal forms of the two `clear_scene` functions -/

theorem mesh_clear_scene_eq (s : SceneState) :
    clear_scene s = { s with objs := [], meshes := [], materials := [], armatures := [] } := by
  simp [clear_scene, meshUsers, matUsers, armUsers]

/-! ### The row arrangement -/

theorem setLoc_map_oid (s : SceneState) (ids : List Nat) (l : ℚ × ℚ × ℚ) :
    ((setLoc s ids l).objs).map Obj.oid = s.objs.map Obj.oid := by
  unfold setLoc
  simp only [List.map_map]
  exact List.map_congr_left (fun x _ => by simp [Function.comp, locTo_oid])

theorem arrangeLocs_preserves (objects : List Obj) :
    ∀ (start : Nat) (spacing : ℚ) (s : SceneState) (x : Obj),
      x ∈ s.objs → x.oid ∉ objects.map Obj.oid →
      x ∈ (arrangeLocs objects start spacing s).objs := by
  induction objects with
  | nil => intro start spacing s x hx _; exact hx
  | cons o rest ih =>
    intro start spacing s x hx hnid
    rw [List.map_cons, List.mem_cons] at hnid
    push_neg at hnid
    simp only [arrangeLocs]
    apply ih (start + 1) spacing _ x _ hnid.2
    refine List.mem_map.mpr ⟨x, hx, ?_⟩
    rw [locTo_of_not_mem]
    simp [hnid.1]

theorem arrangeLocs_get (objects : List Obj) :
    ∀ (start : Nat) (spacing : ℚ) (s : SceneState),
      (objects.map Obj.oid).Nodup →
      (∀ x ∈ objects, x.oid ∈ s.objs.map Obj.oid) →
      ∀ j (hj : j < objects.length),
        ∃ o ∈ (arrangeLocs objects start spacing s).objs,
          o.oid = (objects.get ⟨j, hj⟩).oid ∧
          o.loc = (((start + j : Nat) : ℚ) * spacing, 0, 0) := by
  induction objects with
  | nil =>
    intro start spacing s _ _ j hj
    exact absurd hj (by simp)
  | cons o rest ih =>
    intro start spacing s hnd hin j hj
    rw [List.map_cons, List.nodup_cons] at hnd
    cases j with
    | zero =>
      obtain ⟨x, hx, hxid⟩ := List.mem_map.mp (hin o (List.mem_cons_self o rest))
      refine ⟨locTo ((start : ℚ) * spacing, 0, 0) [o.oid] x, ?_, ?_, ?_⟩
      · simp only [arrangeLocs]
        exact arrangeLocs_preserves rest (start + 1) spacing _ _
          (List.mem_map_of_mem _ hx)
          (by rw [locTo_oid, hxid]; exact hnd.1)
      · rw [locTo_oid, hxid]; rfl
      · have hloc := locTo_loc_of_mem ((start : ℚ) * spacing, 0, 0) [o.oid] x
          (by simp [hxid])
        simpa using hloc
    | succ jj =>
      have hjj : jj < rest.length := by simpa using hj
      have hin2 : ∀ x ∈ rest,
          x.oid ∈ ((setLoc s [o.oid] ((start : ℚ) * spacing, 0, 0)).objs).map Obj.oid := by
        intro x hxx
        rw [setLoc_map_oid]
        exact hin x (List.mem_cons_of_mem _ hxx)
      obtain ⟨o2, hmem, hid, hloc⟩ := ih (start + 1) spacing _ hnd.2 hin2 jj hjj
      refine ⟨o2, ?_, ?_, ?_⟩
      · simpa [arrangeLocs] using hmem
      · rw [hid]
        rfl
      · have harith : start + 1 + jj = start + (jj + 1) := by omega
        rw [hloc, harith]

end ImportMeshes

namespace ViewPly

/-- Normal form of the PLY script's `clear_scene`: the armature block list is
left untouched. -/
theorem ply_clear_scene_eq (s : SceneState) :
    clear_scene s = { s with objs := [], meshes := [], materials := [] } := by
  simp [clear_scene, meshUsers, matUsers]

end ViewPly

/-! ## The claims -/

/-- C1: in `create_collection_for_each_file`, the set of newly created
objects is exactly the set difference between the objects present after
the import call and the snapshot taken immediately before it, and every
object of that difference is placed into exactly one of the three buckets of
`categorize`: mesh, armature, or other. -/
theorem C1_snapshot_diff_and_three_buckets :
    (∀ (after : List Obj) (existing : List Nat) (o : Obj),
        o ∈ new_objects after existing ↔ o ∈ after ∧ o.oid ∉ existing) ∧
    (∀ (os : List Obj) (o : Obj), o ∈ os →
        ((o ∈ (categorize os).1 ∧ o ∉ (categorize os).2.1 ∧ o ∉ (categorize os).2.2) ∨
         (o ∉ (categorize os).1 ∧ o ∈ (categorize os).2.1 ∧ o ∉ (categorize os).2.2) ∨
         (o ∉ (categorize os).1 ∧ o ∉ (categorize os).2.1 ∧ o ∈ (categorize os).2.2))) := by
  constructor
  · intro after existing o
    exact mem_new_objects
  · intro os o ho
    rw [categorize_eq]
    simp only [List.mem_filter]
    by_cases hM : o.otype = "MESH"
    · refine Or.inl ⟨⟨ho, by simp [hM]⟩, ?_, ?_⟩
      · intro hcon
        rw [hM] at hcon
        exact absurd hcon.2 (by decide)
      · intro hcon
        rw [hM] at hcon
        exact absurd hcon.2 (by decide)
    · by_cases hA : o.otype = "ARMATURE"
      · refine Or.inr (Or.inl ⟨?_, ⟨ho, by simp [hA]⟩, ?_⟩)
        · intro hcon
          exact hM (beq_iff_eq.mp hcon.2)
        · intro hcon
          rw [hA] at hcon
          exact absurd hcon.2 (by decide)
      · refine Or.inr (Or.inr ⟨?_, ?_, ⟨ho, by simp [hM, hA]⟩⟩)
        · intro hcon
          exact hM (beq_iff_eq.mp hcon.2)
        · intro hcon
          exact hA (beq_iff_eq.mp hcon.2)

/-- Witness for C1 at a one-object scene diff. -/
theorem C1_witness :
    (obX ∈ new_objects [obX] [] ↔ obX ∈ [obX] ∧ obX.oid ∉ ([] : List Nat)) ∧
    ((obX ∈ (categorize [obX]).1 ∧ obX ∉ (categorize [obX]).2.1 ∧ obX ∉ (categorize [obX]).2.2) ∨
     (obX ∉ (categorize [obX]).1 ∧ obX ∈ (categorize [obX]).2.1 ∧ obX ∉ (categorize [obX]).2.2) ∨
     (obX ∉ (categorize [obX]).1 ∧ obX ∉ (categorize [obX]).2.1 ∧ obX ∈ (categorize [obX]).2.2)) :=
  ⟨C1_snapshot_diff_and_three_buckets.1 [obX] [] obX,
   C1_snapshot_diff_and_three_buckets.2 [obX] obX (by simp)⟩

/-- C4 counterexample: the claim also asserts, for the PLY script's
`clear_scene`, that no orphaned armature data block remains; on a scene whose
only object is an armature, the PLY variant deletes the object but leaves the
now zero-user armature block in `bpy.data`. -/
theorem C4_counterexample :
    ¬ ((ViewPly.clear_scene exSceneC4).objs = [] ∧
        ∀ a ∈ (ViewPly.clear_scene exSceneC4).armatures,
          armUsers (ViewPly.clear_scene exSceneC4) a ≠ 0) := by
  decide

/-- C4 amended: after `clear_scene` the scene has zero objects in both
scripts; the mesh script leaves no orphaned mesh, material or armature data
blocks, while the PLY script purges only mesh and material blocks (it has no
armature purge pass). -/
theorem C4_clear_scene_amended (s : SceneState) :
    ((ImportMeshes.clear_scene s).objs = [] ∧
      (∀ m ∈ (ImportMeshes.clear_scene s).meshes,
        meshUsers (ImportMeshes.clear_scene s) m.mid ≠ 0) ∧
      (∀ mt ∈ (ImportMeshes.clear_scene s).materials,
        matUsers (ImportMeshes.clear_scene s) mt ≠ 0) ∧
      (∀ a ∈ (ImportMeshes.clear_scene s).armatures,
        armUsers (ImportMeshes.clear_scene s) a ≠ 0)) ∧
    ((ViewPly.clear_scene s).objs = [] ∧
      (∀ m ∈ (ViewPly.clear_scene s).meshes,
        meshUsers (ViewPly.clear_scene s) m.mid ≠ 0) ∧
      (∀ mt ∈ (ViewPly.clear_scene s).materials,
        matUsers (ViewPly.clear_scene s) mt ≠ 0)) := by
  rw [ImportMeshes.mesh_clear_scene_eq, ViewPly.ply_clear_scene_eq]
  simp

/-- Witness for C4 on the concrete armature scene. -/
theorem C4_witness :
    (ImportMeshes.clear_scene exSceneC4).objs = [] ∧
    (ViewPly.clear_scene exSceneC4).objs = [] :=
  ⟨(C4_clear_scene_amended exSceneC4).1.1, (C4_clear_scene_amended exSceneC4).2.1⟩

/-- C5: a path whose lowercased extension is none of `.fbx`, `.glb`, `.gltf`
makes `import_file` print the unsupported-format line and return `false`,
invoking no host operator and leaving the scene unchanged. -/
theorem C5_unsupported_extension (h : Host) (p : FPath) (w : World)
    (hext : pyLower p.suffix ∉ [".fbx", ".glb", ".gltf"]) :
    ImportMeshes.import_file h p w
      = (false, { w with out := w.out ++ ["✗ Unsupported file format: " ++ p.fname] }) ∧
    (ImportMeshes.import_file h p w).2.scene = w.scene ∧
    (ImportMeshes.import_file h p w).2.ops = w.ops := by
  simp only [List.mem_cons, List.not_mem_nil, or_false, not_or] at hext
  obtain ⟨h1, h2, h3⟩ := hext
  refine ⟨?_, ?_, ?_⟩ <;> simp [ImportMeshes.import_file, h1, h2, h3]

/-- Witness for C5 on a `.obj` path. -/
theorem C5_witness :
    ImportMeshes.import_file hostB pObj emptyWorld
      = (false, { emptyWorld with
          out := emptyWorld.out ++ ["✗ Unsupported file format: " ++ pObj.fname] }) ∧
    (ImportMeshes.import_file hostB pObj emptyWorld).2.scene = emptyWorld.scene ∧
    (ImportMeshes.import_file hostB pObj emptyWorld).2.ops = emptyWorld.ops :=
  C5_unsupported_extension hostB pObj emptyWorld (by decide)

/-- C9: `arrange_objects_in_row` places the object of the filtered
mesh/armature/empty list at index `j` at location `(j * spacing, 0, 0)`, with
the spacing constant defaulting to `5.0`. -/
theorem C9_row_arrangement (s : SceneState) (spacing : ℚ)
    (hnd : (s.objs.map Obj.oid).Nodup) :
    (∀ j (hj : j < (ImportMeshes.rowObjects s).length),
        ∃ o ∈ (ImportMeshes.arrange_objects_in_row spacing s).objs,
          o.oid = ((ImportMeshes.rowObjects s).get ⟨j, hj⟩).oid ∧
          o.loc = ((j : ℚ) * spacing, 0, 0)) ∧
    ImportMeshes.DEFAULT_SPACING = 5 := by
  constructor
  · intro j hj
    have hsub : ∀ x ∈ ImportMeshes.rowObjects s, x.oid ∈ s.objs.map Obj.oid :=
      fun x hx => List.mem_map_of_mem _ (List.mem_of_mem_filter hx)
    have hsl : List.Sublist (ImportMeshes.rowObjects s) s.objs := List.filter_sublist _
    have hnd2 : ((ImportMeshes.rowObjects s).map Obj.oid).Nodup :=
      (hsl.map Obj.oid).nodup hnd
    have hres := ImportMeshes.arrangeLocs_get (ImportMeshes.rowObjects s) 0 spacing s
      hnd2 hsub j hj
    simpa [ImportMeshes.arrange_objects_in_row] using hres
  · rfl

/-- Witness for C9 on a two-object scene at the default spacing. -/
theorem C9_witness :
    (∀ j (hj : j < (ImportMeshes.rowObjects exSceneC9).length),
        ∃ o ∈ (ImportMeshes.arrange_objects_in_row 5 exSceneC9).objs,
          o.oid = ((ImportMeshes.rowObjects exSceneC9).get ⟨j, hj⟩).oid ∧
          o.loc = ((j : ℚ) * 5, 0, 0)) ∧
    ImportMeshes.DEFAULT_SPACING = 5 :=
  C9_row_arrangement exSceneC9 5 (by decide)

/-- C2: splitting the configured file list around the file at index
`pre.length`, every object created by that file's import ends at location
`(0, i * 3.0, 0)` with `i = pre.length`, that location survives the rest of
the loop, and distinct indices give distinct Y offsets. -/
theorem C2_y_offset_layout (h : Host) (w : World) (pre post : List String) (f : String)
    (hinv : Inv w.scene) :
    (ImportMeshes.ccfeLoop h 0 (pre ++ f :: post) (w, [])
        = ImportMeshes.ccfeLoop h (pre.length + 1) post
            (ImportMeshes.ccfeStep h pre.length f (ImportMeshes.ccfeLoop h 0 pre (w, [])))) ∧
    (∀ o ∈ (ImportMeshes.ccfeStep h pre.length f
          (ImportMeshes.ccfeLoop h 0 pre (w, []))).1.scene.objs,
        o ∉ (ImportMeshes.ccfeLoop h 0 pre (w, [])).1.scene.objs →
          o.loc = (0, ImportMeshes.y_offset pre.length, 0) ∧
          o ∈ (ImportMeshes.ccfeLoop h 0 (pre ++ f :: post) (w, [])).1.scene.objs) ∧
    (∀ i j : Nat, i ≠ j → ImportMeshes.y_offset i ≠ ImportMeshes.y_offset j) := by
  have hsplit : ImportMeshes.ccfeLoop h 0 (pre ++ f :: post) (w, [])
      = ImportMeshes.ccfeLoop h (pre.length + 1) post
          (ImportMeshes.ccfeStep h pre.length f (ImportMeshes.ccfeLoop h 0 pre (w, []))) := by
    rw [ImportMeshes.ccfeLoop_append h pre (f :: post) 0 (w, [])]
    simp [ImportMeshes.ccfeLoop]
  refine ⟨hsplit, ?_, ?_⟩
  · intro o ho hnot
    have hinv1 : Inv (ImportMeshes.ccfeLoop h 0 pre (w, [])).1.scene :=
      ImportMeshes.ccfeLoop_inv h pre 0 (w, []) hinv
    cases hex : h.fileExists (FPath.str ⟨ImportMeshes.RESULTS_DIR, f⟩) with
    | false =>
      have hm : ImportMeshes.ccfeStep h pre.length f (ImportMeshes.ccfeLoop h 0 pre (w, []))
          = ({ (ImportMeshes.ccfeLoop h 0 pre (w, [])).1 with
               out := (ImportMeshes.ccfeLoop h 0 pre (w, [])).1.out
                 ++ ["✗ File not found: " ++ FPath.str ⟨ImportMeshes.RESULTS_DIR, f⟩] },
             (ImportMeshes.ccfeLoop h 0 pre (w, [])).2) :=
        ImportMeshes.ccfeStep_missing h pre.length f _ _ hex
      rw [hm] at ho
      exact absurd ho hnot
    | true =>
      obtain ⟨nl, hobjs, hmap, hprops, _⟩ :=
        ImportMeshes.ccfeStep_spec h pre.length f (ImportMeshes.ccfeLoop h 0 pre (w, [])).1
          (ImportMeshes.ccfeLoop h 0 pre (w, [])).2 hex hinv1
      have hobjs2 : (ImportMeshes.ccfeStep h pre.length f
            (ImportMeshes.ccfeLoop h 0 pre (w, []))).1.scene.objs
          = (ImportMeshes.ccfeLoop h 0 pre (w, [])).1.scene.objs ++ nl := hobjs
      rw [hobjs2] at ho
      rcases List.mem_append.mp ho with hl | hr
      · exact absurd hl hnot
      refine ⟨(hprops o hr).2, ?_⟩
      rw [hsplit]
      refine ImportMeshes.ccfeLoop_preserves h post (pre.length + 1) _ ?_ o ?_
      · exact ImportMeshes.ccfeStep_inv h pre.length f _ _ hinv1
      · rw [hobjs2]
        exact List.mem_append_right _ hr
  · intro i j hne heq
    simp only [ImportMeshes.y_offset] at heq
    have h3 := mul_right_cancel₀ (show (3 : ℚ) ≠ 0 by norm_num) heq
    exact hne (Nat.cast_injective h3)

/-- Witness for C2 on a concrete one-file run. -/
theorem C2_witness :
    (ImportMeshes.ccfeLoop hostA 0 ([] ++ "a.glb" :: []) (emptyWorld, [])
        = ImportMeshes.ccfeLoop hostA (([] : List String).length + 1) []
            (ImportMeshes.ccfeStep hostA (([] : List String).length) ("a.glb")
              (ImportMeshes.ccfeLoop hostA 0 [] (emptyWorld, [])))) ∧
    (∀ o ∈ (ImportMeshes.ccfeStep hostA (([] : List String).length) ("a.glb")
          (ImportMeshes.ccfeLoop hostA 0 [] (emptyWorld, []))).1.scene.objs,
        o ∉ (ImportMeshes.ccfeLoop hostA 0 [] (emptyWorld, [])).1.scene.objs →
          o.loc = (0, ImportMeshes.y_offset (([] : List String).length), 0) ∧
          o ∈ (ImportMeshes.ccfeLoop hostA 0 ([] ++ "a.glb" :: [])
                (emptyWorld, [])).1.scene.objs) ∧
    (∀ i j : Nat, i ≠ j → ImportMeshes.y_offset i ≠ ImportMeshes.y_offset j) :=
  C2_y_offset_layout hostA emptyWorld [] [] ("a.glb")
    (by intro o ho; simp [emptyWorld, emptyScene] at ho)

/-- C3: two sequential imports of two distinct files give each file its own
collection, every newly created object is linked exactly into its file's
collection, and the two collections' member sets are the two batches of new
objects, which are disjoint. -/
theorem C3_disjoint_collections (h : Host) (w : World) (d : Dict) (f1 f2 : String)
    (hne : f1 ≠ f2) (hinv : Inv w.scene) (hinvc : InvC w.scene)
    (hex1 : h.fileExists (FPath.str ⟨ImportMeshes.RESULTS_DIR, f1⟩) = true)
    (hex2 : h.fileExists (FPath.str ⟨ImportMeshes.RESULTS_DIR, f2⟩) = true) :
    ∃ new1 new2 : List Obj,
      (ImportMeshes.ccfeStep h 0 f1 (w, d)).1.scene.objs = w.scene.objs ++ new1 ∧
      (ImportMeshes.ccfeStep h 1 f2 (ImportMeshes.ccfeStep h 0 f1 (w, d))).1.scene.objs
        = (ImportMeshes.ccfeStep h 0 f1 (w, d)).1.scene.objs ++ new2 ∧
      (∀ o ∈ new1, o.colls = [w.scene.nextCid]) ∧
      (∀ o ∈ new2, o.colls = [w.scene.nextCid + 1]) ∧
      (ImportMeshes.ccfeStep h 1 f2 (ImportMeshes.ccfeStep h 0 f1 (w, d))).1.scene.colls
        = w.scene.colls ++ [⟨w.scene.nextCid, pyStem f1⟩, ⟨w.scene.nextCid + 1, pyStem f2⟩] ∧
      collMembers (ImportMeshes.ccfeStep h 1 f2
          (ImportMeshes.ccfeStep h 0 f1 (w, d))).1.scene w.scene.nextCid = new1 ∧
      collMembers (ImportMeshes.ccfeStep h 1 f2
          (ImportMeshes.ccfeStep h 0 f1 (w, d))).1.scene (w.scene.nextCid + 1) = new2 ∧
      (∀ o ∈ new1, o ∉ new2) := by
  obtain ⟨nl1, hobjs1, hmap1, hprops1, hO1, hC1, hcolls1, hsc1, hdict1, _⟩ :=
    ImportMeshes.ccfeStep_spec h 0 f1 w d hex1 hinv
  have hinv1 : Inv (ImportMeshes.ccfeStep h 0 f1 (w, d)).1.scene :=
    ImportMeshes.ccfeStep_inv h 0 f1 w d hinv
  obtain ⟨nl2, hobjs2p, hmap2, hprops2p, hO2, hC2, hcolls2p, hsc2, hdict2, _⟩ :=
    ImportMeshes.ccfeStep_spec h 1 f2 (ImportMeshes.ccfeStep h 0 f1 (w, d)).1
      (ImportMeshes.ccfeStep h 0 f1 (w, d)).2 hex2 hinv1
  have hobjs2 : (ImportMeshes.ccfeStep h 1 f2
        (ImportMeshes.ccfeStep h 0 f1 (w, d))).1.scene.objs
      = (ImportMeshes.ccfeStep h 0 f1 (w, d)).1.scene.objs ++ nl2 := hobjs2p
  have hcid1 : (ImportMeshes.ccfeStep h 0 f1 (w, d)).1.scene.nextCid
      = w.scene.nextCid + 1 := hC1
  have hprops2c : ∀ o ∈ nl2, o.colls = [w.scene.nextCid + 1] := by
    intro o ho
    have hx := (hprops2p o ho).1
    rw [hcid1] at hx
    exact hx
  have hcolls2 : (ImportMeshes.ccfeStep h 1 f2
        (ImportMeshes.ccfeStep h 0 f1 (w, d))).1.scene.colls
      = (ImportMeshes.ccfeStep h 0 f1 (w, d)).1.scene.colls
        ++ [⟨(ImportMeshes.ccfeStep h 0 f1 (w, d)).1.scene.nextCid, pyStem f2⟩] := hcolls2p
  have hfw1 : w.scene.objs.filter (fun o => o.colls.contains w.scene.nextCid) = [] := by
    apply List.filter_eq_nil_iff.mpr
    intro o ho hcon
    have hc : w.scene.nextCid ∈ o.colls := by simpa using hcon
    exact absurd (hinvc o ho _ hc) (lt_irrefl _)
  have hfw2 : w.scene.objs.filter (fun o => o.colls.contains (w.scene.nextCid + 1)) = [] := by
    apply List.filter_eq_nil_iff.mpr
    intro o ho hcon
    have hc : w.scene.nextCid + 1 ∈ o.colls := by simpa using hcon
    have := hinvc o ho _ hc
    omega
  have hf11 : nl1.filter (fun o => o.colls.contains w.scene.nextCid) = nl1 := by
    apply List.filter_eq_self.mpr
    intro o ho
    rw [(hprops1 o ho).1]
    simp
  have hf12 : nl1.filter (fun o => o.colls.contains (w.scene.nextCid + 1)) = [] := by
    apply List.filter_eq_nil_iff.mpr
    intro o ho hcon
    rw [(hprops1 o ho).1] at hcon
    have : w.scene.nextCid + 1 = w.scene.nextCid := by simpa using hcon
    omega
  have hf21 : nl2.filter (fun o => o.colls.contains w.scene.nextCid) = [] := by
    apply List.filter_eq_nil_iff.mpr
    intro o ho hcon
    rw [hprops2c o ho] at hcon
    have : w.scene.nextCid = w.scene.nextCid + 1 := by simpa using hcon
    omega
  have hf22 : nl2.filter (fun o => o.colls.contains (w.scene.nextCid + 1)) = nl2 := by
    apply List.filter_eq_self.mpr
    intro o ho
    rw [hprops2c o ho]
    simp
  refine ⟨nl1, nl2, hobjs1, hobjs2, fun o ho => (hprops1 o ho).1, hprops2c, ?_, ?_, ?_, ?_⟩
  · rw [hcolls2, hcolls1, hcid1, List.append_assoc]
    rfl
  · unfold collMembers
    rw [hobjs2, hobjs1, List.filter_append, List.filter_append, hfw1, hf11, hf21]
    simp
  · unfold collMembers
    rw [hobjs2, hobjs1, List.filter_append, List.filter_append, hfw2, hf12, hf22]
    simp
  · intro o ho1 ho2
    have e1 := (hprops1 o ho1).1
    have e2 := hprops2c o ho2
    rw [e1] at e2
    have : w.scene.nextCid = w.scene.nextCid + 1 := by simpa using e2
    omega

/-- Witness for C3 on two concrete files. -/
theorem C3_witness :
    ∃ new1 new2 : List Obj,
      (ImportMeshes.ccfeStep hostA 0 ("a.glb") (emptyWorld, [])).1.scene.objs
        = emptyWorld.scene.objs ++ new1 ∧
      (ImportMeshes.ccfeStep hostA 1 ("b.glb")
          (ImportMeshes.ccfeStep hostA 0 ("a.glb") (emptyWorld, []))).1.scene.objs
        = (ImportMeshes.ccfeStep hostA 0 ("a.glb") (emptyWorld, [])).1.scene.objs ++ new2 ∧
      (∀ o ∈ new1, o.colls = [emptyWorld.scene.nextCid]) ∧
      (∀ o ∈ new2, o.colls = [emptyWorld.scene.nextCid + 1]) ∧
      (ImportMeshes.ccfeStep hostA 1 ("b.glb")
          (ImportMeshes.ccfeStep hostA 0 ("a.glb") (emptyWorld, []))).1.scene.colls
        = emptyWorld.scene.colls
          ++ [⟨emptyWorld.scene.nextCid, pyStem ("a.glb")⟩,
              ⟨emptyWorld.scene.nextCid + 1, pyStem ("b.glb")⟩] ∧
      collMembers (ImportMeshes.ccfeStep hostA 1 ("b.glb")
          (ImportMeshes.ccfeStep hostA 0 ("a.glb") (emptyWorld, []))).1.scene
          emptyWorld.scene.nextCid = new1 ∧
      collMembers (ImportMeshes.ccfeStep hostA 1 ("b.glb")
          (ImportMeshes.ccfeStep hostA 0 ("a.glb") (emptyWorld, []))).1.scene
          (emptyWorld.scene.nextCid + 1) = new2 ∧
      (∀ o ∈ new1, o ∉ new2) :=
  C3_disjoint_collections hostA emptyWorld [] ("a.glb") ("b.glb") (by decide)
    (by intro o ho; simp [emptyWorld, emptyScene] at ho)
    (by intro o ho; simp [emptyWorld, emptyScene] at ho)
    rfl rfl

/-- C6: for a supported extension, `import_file` returns `true` exactly when
the host operator completes; a raised exception is caught, the message
containing it is printed, `false` is returned, and the scene is unchanged;
the same holds for `import_ply`, and the loop always proceeds to the next
file. -/
theorem C6_exception_to_boolean (h : Host) (p : FPath) (w : World) :
    ((pyLower p.suffix = ".fbx" ∨ pyLower p.suffix = ".glb" ∨ pyLower p.suffix = ".gltf") →
      (∀ specs, h.importOutcome p.str = Except.ok specs →
          (ImportMeshes.import_file h p w).1 = true) ∧
      (∀ e, h.importOutcome p.str = Except.error e →
          (ImportMeshes.import_file h p w).1 = false ∧
          (ImportMeshes.import_file h p w).2.out
            = w.out ++ ["✗ Error importing " ++ p.fname ++ ": " ++ e] ∧
          (ImportMeshes.import_file h p w).2.scene = w.scene)) ∧
    (∀ specs, h.importOutcome p.str = Except.ok specs →
        (ViewPly.import_ply h p w).1 = true) ∧
    (∀ e, h.importOutcome p.str = Except.error e →
        (ViewPly.import_ply h p w).1 = false ∧
        (ViewPly.import_ply h p w).2.out
          = w.out ++ ["✗ Error importing " ++ p.fname ++ ": " ++ e] ∧
        (ViewPly.import_ply h p w).2.scene = w.scene) ∧
    (∀ (i : Nat) (f : String) (rest : List String) (wd : World × Dict),
        ImportMeshes.ccfeLoop h i (f :: rest) wd
          = ImportMeshes.ccfeLoop h (i + 1) rest (ImportMeshes.ccfeStep h i f wd)) := by
  refine ⟨?_, ?_, ?_, ?_⟩
  · intro hsup
    constructor
    · intro specs hoc
      rcases hsup with h1 | h1 | h1 <;> simp [ImportMeshes.import_file, h1, hoc]
    · intro e hoc
      rcases hsup with h1 | h1 | h1 <;>
        exact ⟨by simp [ImportMeshes.import_file, h1, hoc],
          by simp [ImportMeshes.import_file, h1, hoc],
          by simp [ImportMeshes.import_file, h1, hoc]⟩
  · intro specs hoc
    simp [ViewPly.import_ply, hoc]
  · intro e hoc
    exact ⟨by simp [ViewPly.import_ply, hoc], by simp [ViewPly.import_ply, hoc],
      by simp [ViewPly.import_ply, hoc]⟩
  · intro i f rest wd
    rfl

/-- Witness for C6 on a host whose importer always raises. -/
theorem C6_witness :
    (ImportMeshes.import_file hostC pGlb emptyWorld).1 = false ∧
    (ImportMeshes.import_file hostC pGlb emptyWorld).2.out
      = emptyWorld.out ++ ["✗ Error importing " ++ pGlb.fname ++ ": " ++ "corrupt"] ∧
    (ViewPly.import_ply hostC pGlb emptyWorld).1 = false :=
  ⟨(((C6_exception_to_boolean hostC pGlb emptyWorld).1 (by decide)).2 ("corrupt") rfl).1,
   (((C6_exception_to_boolean hostC pGlb emptyWorld).1 (by decide)).2 ("corrupt") rfl).2.1,
   ((C6_exception_to_boolean hostC pGlb emptyWorld).2.2.1 ("corrupt") rfl).1⟩

/-- C7: when framing cannot happen (no VIEW_3D area, no WINDOW region, or a
raised exception), the framing block leaves the world unchanged or only
appends the note and tip lines, and `main` still reaches its success summary
line. -/
theorem C7_framing_failure_tolerated (h : Host) (sc : Screen) (w : World) (tip : String)
    (hfail : firstV3D sc = none
      ∨ (∃ a, firstV3D sc = some a ∧ firstWindow a = none)
      ∨ (∃ e, h.viewAllOutcome = Except.error e)) :
    (firstV3D sc = none → tryFrameBlock h sc tip w = w) ∧
    (∀ a, firstV3D sc = some a → firstWindow a = none → tryFrameBlock h sc tip w = w) ∧
    (∀ a r e, firstV3D sc = some a → firstWindow a = some r →
        h.viewAllOutcome = Except.error e →
        tryFrameBlock h sc tip w
          = { w with ops := w.ops ++ [HostOp.viewAll],
                     out := w.out ++ ["Note: Could not auto-frame view: " ++ e, tip] }) ∧
    (("✓ Successfully imported "
        ++ toString (ImportMeshes.main h sc w).2.length ++ " file(s)")
      ∈ (ImportMeshes.main h sc w).1.out) := by
  refine ⟨?_, ?_, ?_, ImportMeshes.main_summary_line_mem h sc w⟩
  · intro hv
    simp [tryFrameBlock, hv]
  · intro a hv hw
    simp [tryFrameBlock, hv, hw]
  · intro a r e hv hw ho
    simp [tryFrameBlock, hv, hw, ho]

/-- Witness for C7 on a screen with no areas and a raising view-all. -/
theorem C7_witness :
    (firstV3D screenEmpty = none
      → tryFrameBlock hostA screenEmpty ("t") emptyWorld = emptyWorld) ∧
    (∀ a, firstV3D screenEmpty = some a → firstWindow a = none →
        tryFrameBlock hostA screenEmpty ("t") emptyWorld = emptyWorld) ∧
    (∀ a r e, firstV3D screenEmpty = some a → firstWindow a = some r →
        hostA.viewAllOutcome = Except.error e →
        tryFrameBlock hostA screenEmpty ("t") emptyWorld
          = { emptyWorld with ops := emptyWorld.ops ++ [HostOp.viewAll],
                              out := emptyWorld.out
                                ++ ["Note: Could not auto-frame view: " ++ e, "t"] }) ∧
    (("✓ Successfully imported "
        ++ toString (ImportMeshes.main hostA screenEmpty emptyWorld).2.length ++ " file(s)")
      ∈ (ImportMeshes.main hostA screenEmpty emptyWorld).1.out) :=
  C7_framing_failure_tolerated hostA screenEmpty emptyWorld ("t") (Or.inl rfl)

/-- C8: a configured path that does not exist is reported and skipped before
any import attempt: the mesh script's loop body leaves scene and dict
untouched and only prints the not-found line, the loop then continues with
the next file, and the PLY script's `main` returns right after its header and
the not-found line, never clearing or importing. -/
theorem C8_missing_file_skipped (h : Host) (sc : Screen) (i : Nat) (f : String)
    (w : World) (d : Dict) :
    (h.fileExists (FPath.str ⟨ImportMeshes.RESULTS_DIR, f⟩) = false →
      ImportMeshes.ccfeStep h i f (w, d)
        = ({ w with out := w.out
              ++ ["✗ File not found: " ++ FPath.str ⟨ImportMeshes.RESULTS_DIR, f⟩] }, d)) ∧
    (∀ rest : List String,
        ImportMeshes.ccfeLoop h i (f :: rest) (w, d)
          = ImportMeshes.ccfeLoop h (i + 1) rest (ImportMeshes.ccfeStep h i f (w, d))) ∧
    (h.fileExists (FPath.str ViewPly.PLY_FILE) = false →
      ViewPly.main h sc w
        = { w with out := w.out ++ ["
" ++ sepLine,
            "PLY Viewer - Importing PLY file into Blender", sepLine ++ "
",
            "✗ File not found: " ++ FPath.str ViewPly.PLY_FILE] }) := by
  refine ⟨?_, ?_, ?_⟩
  · intro hex
    exact ImportMeshes.ccfeStep_missing h i f w d hex
  · intro rest
    rfl
  · intro hex
    simp [ViewPly.main, addOut, hex]

/-- Witness for C8 on a host with an empty filesystem. -/
theorem C8_witness :
    ImportMeshes.ccfeStep hostB 0 ("a.glb") (emptyWorld, [])
      = ({ emptyWorld with out := emptyWorld.out
            ++ ["✗ File not found: "
                ++ FPath.str ⟨ImportMeshes.RESULTS_DIR, "a.glb"⟩] }, []) ∧
    ViewPly.main hostB screenEmpty emptyWorld
      = { emptyWorld with out := emptyWorld.out ++ ["
" ++ sepLine,
          "PLY Viewer - Importing PLY file into Blender", sepLine ++ "
",
          "✗ File not found: " ++ FPath.str ViewPly.PLY_FILE] } :=
  ⟨(C8_missing_file_skipped hostB screenEmpty 0 ("a.glb") emptyWorld []).1 rfl,
   (C8_missing_file_skipped hostB screenEmpty 0 ("a.glb") emptyWorld []).2.2 rfl⟩

/-- C10: for an existing file whose import fails, the loop body has already
created, linked and recorded the dedicated collection, so the empty
collection persists in the scene and the dict; the dict's final size counts
the configured files found on disk (not the successful imports), and that is
the number `main` prints in its success summary. -/
theorem C10_empty_collection_and_count (h : Host) (sc : Screen) (i : Nat) (f : String)
    (w : World) (d : Dict)
    (hinv : Inv w.scene) (hinvc : InvC w.scene)
    (hex : h.fileExists (FPath.str ⟨ImportMeshes.RESULTS_DIR, f⟩) = true)
    (hfail : (ImportMeshes.import_file h ⟨ImportMeshes.RESULTS_DIR, f⟩ w).1 = false) :
    (ImportMeshes.ccfeStep h i f (w, d)).1.scene.colls
      = w.scene.colls ++ [⟨w.scene.nextCid, pyStem f⟩] ∧
    (ImportMeshes.ccfeStep h i f (w, d)).1.scene.sceneChildren
      = w.scene.sceneChildren ++ [w.scene.nextCid] ∧
    (ImportMeshes.ccfeStep h i f (w, d)).2 = dictInsert d f w.scene.nextCid ∧
    (ImportMeshes.ccfeStep h i f (w, d)).1.scene.objs = w.scene.objs ∧
    collMembers (ImportMeshes.ccfeStep h i f (w, d)).1.scene w.scene.nextCid = [] ∧
    (∀ files : List String, files.Nodup →
        ((ImportMeshes.ccfeLoop h 0 files (w, [])).2).length
          = (files.filter
              (fun g => h.fileExists (FPath.str ⟨ImportMeshes.RESULTS_DIR, g⟩))).length) ∧
    (("✓ Successfully imported "
        ++ toString (ImportMeshes.main h sc w).2.length ++ " file(s)")
      ∈ (ImportMeshes.main h sc w).1.out) := by
  obtain ⟨nl, hobjs, hmap, hprops, hO, hC, hcolls, hscn, hdict, hfail2⟩ :=
    ImportMeshes.ccfeStep_spec h i f w d hex hinv
  have hnil : nl = [] := hfail2 hfail
  subst hnil
  rw [List.append_nil] at hobjs
  refine ⟨hcolls, hscn, hdict, hobjs, ?_, ?_, ImportMeshes.main_summary_line_mem h sc w⟩
  · unfold collMembers
    rw [hobjs]
    apply List.filter_eq_nil_iff.mpr
    intro o ho hcon
    have hc : w.scene.nextCid ∈ o.colls := by simpa using hcon
    exact absurd (hinvc o ho _ hc) (lt_irrefl _)
  · intro files hnd
    have hlen := ImportMeshes.ccfeLoop_dict_length h files 0 w [] hnd (by simp)
    simpa using hlen

/-- Witness for C10 on a host where the file exists but its import raises. -/
theorem C10_witness :
    (ImportMeshes.ccfeStep hostC 0 ("a.glb") (emptyWorld, [])).1.scene.colls
      = emptyWorld.scene.colls ++ [⟨emptyWorld.scene.nextCid, pyStem ("a.glb")⟩] ∧
    (ImportMeshes.ccfeStep hostC 0 ("a.glb") (emptyWorld, [])).1.scene.sceneChildren
      = emptyWorld.scene.sceneChildren ++ [emptyWorld.scene.nextCid] ∧
    (ImportMeshes.ccfeStep hostC 0 ("a.glb") (emptyWorld, [])).2
      = dictInsert [] ("a.glb") emptyWorld.scene.nextCid ∧
    (ImportMeshes.ccfeStep hostC 0 ("a.glb") (emptyWorld, [])).1.scene.objs
      = emptyWorld.scene.objs ∧
    collMembers (ImportMeshes.ccfeStep hostC 0 ("a.glb")
        (emptyWorld, [])).1.scene emptyWorld.scene.nextCid = [] ∧
    (∀ files : List String, files.Nodup →
        ((ImportMeshes.ccfeLoop hostC 0 files (emptyWorld, [])).2).length
          = (files.filter
              (fun g => hostC.fileExists
                (FPath.str ⟨ImportMeshes.RESULTS_DIR, g⟩))).length) ∧
    (("✓ Successfully imported "
        ++ toString (ImportMeshes.main hostC screenEmpty emptyWorld).2.length ++ " file(s)")
      ∈ (ImportMeshes.main hostC screenEmpty emptyWorld).1.out) :=
  C10_empty_collection_and_count hostC screenEmpty 0 ("a.glb") emptyWorld []
    (by intro o ho; simp [emptyWorld, emptyScene] at ho)
    (by intro o ho; simp [emptyWorld, emptyScene] at ho)
    rfl (by decide)

end UniRig
